import Mathlib

/-!
Shallow embedding of the node-mongodb-provider repository.

The repository contains three evolutions of an abstract MongoDB provider
base class plus a small utility module:
  - lib/utils.js and an unnamed utils file (tick, toObjectID);
  - an unnamed file with the most complete AbstractProvider (canonical
    variant: find, findOne, findOnly, aggregate, create, createOne,
    update, updateOne, findAndUpdate, remove, removeOnly, findAndRemove,
    count);
  - an unnamed file with AbstractProvider plus ensureIndexes;
  - lib/index.js, the earliest AbstractProvider variant.

Operations are callback based.  Each operation is modelled as a pure
function from the driver responses (collection-acquisition error, driver
call error and value) and the behaviour of the completion callback of the
caller to an observable record: options passed to db.collection, the
driver calls issued, the argument lists of every invocation of the
completion callback, the exception (if any) observed synchronously by the
driver call stack, and the exceptions scheduled by tick for re-raise on a
later scheduling turn.
-/

set_option autoImplicit false

namespace MongoProvider

/-- JavaScript-like values flowing through the provider: the code only
inspects truthiness, a length property, element zero, and serializes
values with JSON.stringify; everything else is forwarded opaquely. -/
inductive Js where
  | undef
  | null
  | bool (b : Bool)
  | num (n : Int)
  | str (s : String)
  | error (msg : String)
  | arr (elems : List Js)
  | obj (fields : List (String × Js))
deriving Repr

/-- JavaScript truthiness, as used by the if tests of the source. -/
def Js.truthy : Js → Bool
  | .undef => false
  | .null => false
  | .bool b => b
  | .num n => n != 0
  | .str s => s != ""
  | .error _ => true
  | .arr _ => true
  | .obj _ => true

mutual

/-- Model of JSON.stringify as used in the diagnostic error messages. -/
def Js.stringify : Js → String
  | .undef => "undefined"
  | .null => "null"
  | .bool b => cond b "true" "false"
  | .num n => toString n
  | .str s => "\"" ++ s ++ "\""
  | .error _ => "\x7b\x7d"
  | .arr xs => "[" ++ Js.stringifyElems xs ++ "]"
  | .obj fs => "\x7b" ++ Js.stringifyFields fs ++ "\x7d"

/-- Comma-separated serialization of array elements. -/
def Js.stringifyElems : List Js → String
  | [] => ""
  | [x] => Js.stringify x
  | x :: y :: xs => Js.stringify x ++ "," ++ Js.stringifyElems (y :: xs)

/-- Comma-separated serialization of object fields. -/
def Js.stringifyFields : List (String × Js) → String
  | [] => ""
  | [(k, v)] => "\"" ++ k ++ "\":" ++ Js.stringify v
  | (k, v) :: f :: fs => "\"" ++ k ++ "\":" ++ Js.stringify v ++ "," ++ Js.stringifyFields (f :: fs)

end

/-- The length property read by the not-created checks of create and
createOne (result.length). -/
def Js.lengthProp : Js → Js
  | .arr xs => .num xs.length
  | .str s => .num s.length
  | _other => (.undef)

/-- Element zero (result[0]), read by createOne. -/
def Js.atZero : Js → Js
  | .arr xs => xs.headD .undef
  | _other => (.undef)

/-- Property read on an object: the value of the field, undefined when
absent or when the value is not an object. -/
def Js.getField (j : Js) (k : String) : Js :=
  match j with
  | .obj fs =>
    match fs.lookup k with
    | some v => v
    | none => .undef
  | _other => (.undef)

/-- Property assignment on an object (options.w = 1): replaces the value
of an existing field in place, appends the field otherwise. -/
def setFieldList (k : String) (v : Js) : List (String × Js) → List (String × Js)
  | [] => [(k, v)]
  | (k0, v0) :: fs => if k0 = k then (k, v) :: fs else (k0, v0) :: setFieldList k v fs

/-- Property assignment lifted to values; on non-objects the source would
fault, but the provider only ever assigns onto option objects. -/
def Js.setField (j : Js) (k : String) (v : Js) : Js :=
  match j with
  | .obj fs => .obj (setFieldList k v fs)
  | other => other

/-- Outcome of invoking a JavaScript function: a normal return or a
thrown exception. -/
inductive CallOutcome where
  | ret (v : Js)
  | thrown (e : Js)
deriving Repr

/-- The completion callback supplied by the caller, modelled by what it
does on each argument list it is invoked with. -/
def UserCb : Type := List Js → CallOutcome

/-- A value passed where a callback is expected: either a function or a
non-function value (tick checks typeof). -/
inductive JsCallback where
  | notFn (v : Js)
  | fn (f : Js → List Js → CallOutcome)

/-- Observable record of one invocation of the wrapper returned by tick:
which invocations of the original callback happened (receiver and
arguments), what the wrapper delivers to its immediate caller, and which
exceptions were scheduled for re-raise on a later scheduling turn. -/
structure TickCall where
  calls : List (Js × List Js)
  toCaller : CallOutcome
  scheduled : List Js

/-- tick from lib/utils.js lines 16-29 (identically in the unnamed utils
file, lines 17-30): given a non-function, returns undefined; given a
function, returns a wrapper that applies the original callback with the
same receiver and arguments inside try/catch, and on a throw schedules
the thrown value to be re-raised via process.nextTick. -/
def tick : JsCallback → Option (Js → List Js → TickCall)
  | .notFn _ => none
  | .fn f => some (fun recv args =>
      match f recv args with
      | .ret _ => ⟨[(recv, args)], .ret .undef, []⟩
      | .thrown e => ⟨[(recv, args)], .ret .undef, [e]⟩)

/-- A driver call issued by a provider operation: the collection method
name and the arguments the provider passes it (the completion callback
excluded). -/
structure DriverCall where
  method : String
  args : List Js
deriving Repr

/-- Observable record of one provider operation call: the options passed
to db.collection, the driver calls issued, the argument lists of the
invocations of the completion callback of the caller, the exception (if
any) observed synchronously by the driver call stack that invoked the
completion handler, and the exceptions scheduled by tick for re-raise on
a later scheduling turn. -/
structure OpRun where
  collOpts : Js
  driverCalls : List DriverCall
  trace : List (List Js)
  driverThrow : Option Js
  deferred : List Js
deriving Repr

/-- The exception of a callback outcome as a singleton list. -/
def thrownPart : CallOutcome → List Js
  | .ret _ => []
  | .thrown e => [e]

/-- The exception of a callback outcome, if one was thrown. -/
def thrownOpt : CallOutcome → Option Js
  | .ret _ => none
  | .thrown e => some e

/-- Trace, driver-observed throw and deferred throws of one invocation. -/
structure InvokeRes where
  trace : List (List Js)
  driverThrow : Option Js
  deferred : List Js

/-- Invocation of the completion callback through a handler wrapped by
tick: the callback runs once with the given arguments; a throw is caught
and scheduled for a later turn, and the invoking stack observes nothing. -/
def tickInvoke (cb : UserCb) (a : List Js) : InvokeRes :=
  ⟨[a], none, thrownPart (cb a)⟩

/-- Invocation of the completion callback through an unwrapped handler:
the callback runs once with the given arguments and a throw propagates to
the driver call stack that invoked the handler. -/
def rawInvoke (cb : UserCb) (a : List Js) : InvokeRes :=
  ⟨[a], thrownOpt (cb a), []⟩

/-- Assemble an operation record from an invocation record. -/
def mkRun (opts : Js) (calls : List DriverCall) (r : InvokeRes) : OpRun :=
  ⟨opts, calls, r.trace, r.driverThrow, r.deferred⟩

/-- Options the canonical _getCollection passes to db.collection
(w = 1, strict = true); canonical provider lines 41-45 and the
ensureIndexes variant lines 59-63. -/
def strictCollOpts : Js := .obj [("w", .num 1), ("strict", .bool true)]

/-- Options the lib/index.js _getCollection passes to db.collection
(w = 1, no strict field); lib/index.js lines 54-58. -/
def legacyCollOpts : Js := .obj [("w", .num 1)]

/-! ### Canonical provider operations

Each operation takes the payload arguments of the source function, the
error value the db.collection callback receives (acqErr, Js.null on
success), the error and value the driver op completion callback receives
(rerr, rres), and the completion callback behaviour cb.  The acquisition
handler is always wrapped by tick because _getCollection passes
tick(callback) to db.collection. -/

/-- find(conditions, projection, options, callback), canonical provider
lines 63-85: collection.find(conditions, projection, options).toArray
with a tick-wrapped handler; a driver error is forwarded, otherwise
callback(null, result). -/
def find (conditions projection options : Js) (acqErr rerr rres : Js) (cb : UserCb) : OpRun :=
  if acqErr.truthy then
    mkRun strictCollOpts [] (tickInvoke cb [acqErr])
  else
    mkRun strictCollOpts [⟨"find.toArray", [conditions, projection, options]⟩]
      (tickInvoke cb (if rerr.truthy then [rerr] else [.null, rres]))

/-- findOne(conditions, projection, callback), canonical provider lines
94-111: collection.findOne with a tick-wrapped handler; no document is an
error embedding JSON.stringify(conditions). -/
def findOne (conditions projection : Js) (acqErr rerr rdoc : Js) (cb : UserCb) : OpRun :=
  if acqErr.truthy then
    mkRun strictCollOpts [] (tickInvoke cb [acqErr])
  else
    mkRun strictCollOpts [⟨"findOne", [conditions, projection]⟩]
      (tickInvoke cb
        (if rerr.truthy then [rerr]
         else if !rdoc.truthy then
           [.error ("Не удалось найти документ: " ++ conditions.stringify)]
         else [.null, rdoc]))

/-- findOnly(conditions, projection, callback), canonical provider lines
120-135: like findOne but no document is passed through as
callback(null, doc) with doc null. -/
def findOnly (conditions projection : Js) (acqErr rerr rdoc : Js) (cb : UserCb) : OpRun :=
  if acqErr.truthy then
    mkRun strictCollOpts [] (tickInvoke cb [acqErr])
  else
    mkRun strictCollOpts [⟨"findOne", [conditions, projection]⟩]
      (tickInvoke cb (if rerr.truthy then [rerr] else [.null, rdoc]))

/-- aggregate(pipeline, options, callback), canonical provider lines
143-155: the completion callback of the caller is handed to
collection.aggregate directly, with no tick wrapper and no
normalization. -/
def aggregate (pipeline options : Js) (acqErr rerr rres : Js) (cb : UserCb) : OpRun :=
  if acqErr.truthy then
    mkRun strictCollOpts [] (tickInvoke cb [acqErr])
  else
    mkRun strictCollOpts [⟨"aggregate", [pipeline, options]⟩]
      (rawInvoke cb [rerr, rres])

/-- create(docs, callback), canonical provider lines 163-176:
collection.insert(docs, w = 1) with a tick-wrapped handler; a missing or
empty result is an error embedding JSON.stringify(docs). -/
def create (docs : Js) (acqErr rerr rres : Js) (cb : UserCb) : OpRun :=
  if acqErr.truthy then
    mkRun strictCollOpts [] (tickInvoke cb [acqErr])
  else
    mkRun strictCollOpts [⟨"insert", [docs, .obj [("w", .num 1)]]⟩]
      (tickInvoke cb
        (if rerr.truthy then [rerr]
         else if !rres.truthy || !rres.lengthProp.truthy then
           [.error ("Не удалось создать документы: " ++ docs.stringify)]
         else [.null, rres]))

/-- createOne(doc, callback), canonical provider lines 183-198: same as
create but returns result[0]. -/
def createOne (doc : Js) (acqErr rerr rres : Js) (cb : UserCb) : OpRun :=
  if acqErr.truthy then
    mkRun strictCollOpts [] (tickInvoke cb [acqErr])
  else
    mkRun strictCollOpts [⟨"insert", [doc, .obj [("w", .num 1)]]⟩]
      (tickInvoke cb
        (if rerr.truthy then [rerr]
         else if !rres.truthy || !rres.lengthProp.truthy then
           [.error ("Не удалось создать документ: " ++ doc.stringify)]
         else [.null, rres.atZero]))

/-- update(conditions, update, callback), canonical provider lines
206-218: collection.update with options w = 1, multi = true and a
tick-wrapped handler; zero affected documents is an error embedding
JSON.stringify(conditions), success is callback(null). -/
def update (conditions updateDoc : Js) (acqErr rerr rnum : Js) (cb : UserCb) : OpRun :=
  if acqErr.truthy then
    mkRun strictCollOpts [] (tickInvoke cb [acqErr])
  else
    mkRun strictCollOpts
      [⟨"update", [conditions, updateDoc, .obj [("w", .num 1), ("multi", .bool true)]]⟩]
      (tickInvoke cb
        (if rerr.truthy then [rerr]
         else if !rnum.truthy then
           [.error ("Не удалось обновить документы: " ++ conditions.stringify)]
         else [.null]))

/-- The extend member of the utils module: the utils files of the
repository (lib/utils.js; the unnamed utils file) export only tick and
toObjectID, so utils.extend is undefined. -/
def utilsExtend : Option (Js → Js → Js) := none

/-- The driver-completion handler written in updateOne, canonical
provider lines 237-242: a driver error is forwarded, zero affected
documents is an error embedding JSON.stringify(conditions), success is
callback(null). -/
def updateOneHandler (conditions rerr rnum : Js) : List Js :=
  if rerr.truthy then [rerr]
  else if !rnum.truthy then
    [.error ("Не удалось обновить документ: " ++ conditions.stringify)]
  else [.null]

/-- updateOne(conditions, update, options, callback), canonical provider
lines 227-244: after acquiring the collection it evaluates
utils.extend(w = 1 object, options) to build the driver options.  Since
the utils module exports no extend, that call throws a TypeError inside
the tick-wrapped acquisition handler: no driver update is issued, the
completion callback is never invoked, and the TypeError is scheduled for
re-raise on a later turn. -/
def updateOne (conditions updateDoc options : Js) (acqErr rerr rnum : Js) (cb : UserCb) : OpRun :=
  if acqErr.truthy then
    mkRun strictCollOpts [] (tickInvoke cb [acqErr])
  else
    match utilsExtend with
    | none =>
      ⟨strictCollOpts, [], [], none, [.error "TypeError: utils.extend is not a function"]⟩
    | some ext =>
      mkRun strictCollOpts
        [⟨"update", [conditions, updateDoc, ext (.obj [("w", .num 1)]) options]⟩]
        (tickInvoke cb (updateOneHandler conditions rerr rnum))

/-- findAndUpdate(conditions, update, callback), canonical provider lines
252-265: collection.findAndModify(conditions, [], update, new = true,
w = 1) with a tick-wrapped handler; no document is an error embedding
JSON.stringify(conditions). -/
def findAndUpdate (conditions updateDoc : Js) (acqErr rerr rdoc : Js) (cb : UserCb) : OpRun :=
  if acqErr.truthy then
    mkRun strictCollOpts [] (tickInvoke cb [acqErr])
  else
    mkRun strictCollOpts
      [⟨"findAndModify", [conditions, .arr [], updateDoc,
          .obj [("new", .bool true), ("w", .num 1)]]⟩]
      (tickInvoke cb
        (if rerr.truthy then [rerr]
         else if !rdoc.truthy then
           [.error ("Не удалось найти и обновить документ: " ++ conditions.stringify)]
         else [.null, rdoc]))

/-- remove(conditions, callback), canonical provider lines 272-285:
collection.remove(conditions, w = 1) with a tick-wrapped handler; zero
removed documents is an error embedding JSON.stringify(conditions),
success is callback(null). -/
def remove (conditions : Js) (acqErr rerr rnum : Js) (cb : UserCb) : OpRun :=
  if acqErr.truthy then
    mkRun strictCollOpts [] (tickInvoke cb [acqErr])
  else
    mkRun strictCollOpts [⟨"remove", [conditions, .obj [("w", .num 1)]]⟩]
      (tickInvoke cb
        (if rerr.truthy then [rerr]
         else if !rnum.truthy then
           [.error ("Не удалось удалить документы: " ++ conditions.stringify)]
         else [.null]))

/-- removeOnly(conditions, callback), canonical provider lines 292-303:
like remove but zero removed is passed through as
callback(null, numRemoved). -/
def removeOnly (conditions : Js) (acqErr rerr rnum : Js) (cb : UserCb) : OpRun :=
  if acqErr.truthy then
    mkRun strictCollOpts [] (tickInvoke cb [acqErr])
  else
    mkRun strictCollOpts [⟨"remove", [conditions, .obj [("w", .num 1)]]⟩]
      (tickInvoke cb (if rerr.truthy then [rerr] else [.null, rnum]))

/-- findAndRemove(conditions, callback), canonical provider lines
310-323: collection.findAndRemove(conditions, [], w = 1) whose handler is
NOT wrapped by tick; no document is an error embedding
JSON.stringify(conditions) (no space after the colon in the source
message). -/
def findAndRemove (conditions : Js) (acqErr rerr rdoc : Js) (cb : UserCb) : OpRun :=
  if acqErr.truthy then
    mkRun strictCollOpts [] (tickInvoke cb [acqErr])
  else
    mkRun strictCollOpts [⟨"findAndRemove", [conditions, .arr [], .obj [("w", .num 1)]]⟩]
      (rawInvoke cb
        (if rerr.truthy then [rerr]
         else if !rdoc.truthy then
           [.error ("Не удалось найти и удалить документ:" ++ conditions.stringify)]
         else [.null, rdoc]))

/-- count(conditions, callback), canonical provider lines 330-341:
collection.count(conditions) whose handler is NOT wrapped by tick; the
count is passed through as callback(null, count). -/
def count (conditions : Js) (acqErr rerr rcount : Js) (cb : UserCb) : OpRun :=
  if acqErr.truthy then
    mkRun strictCollOpts [] (tickInvoke cb [acqErr])
  else
    mkRun strictCollOpts [⟨"count", [conditions]⟩]
      (rawInvoke cb (if rerr.truthy then [rerr] else [.null, rcount]))

/-- find(conditions, callback) of the earliest variant, lib/index.js
lines 101-113: _getCollection there passes the callback to db.collection
without tick (lines 54-58) and requests only w = 1, without strict; the
toArray handler is also unwrapped. -/
def legacyFind (conditions : Js) (acqErr rerr rres : Js) (cb : UserCb) : OpRun :=
  if acqErr.truthy then
    mkRun legacyCollOpts [] (rawInvoke cb [acqErr])
  else
    mkRun legacyCollOpts [⟨"find.toArray", [conditions]⟩]
      (rawInvoke cb (if rerr.truthy then [rerr] else [.null, rres]))

/-! ### ensureIndexes (the variant with index management) -/

/-- One declared index specification: a keyPattern and an options object,
as stored in this.indexes. -/
abbrev IndexSpec : Type := Js × Js

/-- Observable record of one ensureIndexes call: options passed to
db.collection (none when the database is never touched), the
ensureIndex calls issued (keyPattern and the options object as passed),
the completion-callback invocations, whether completion was deferred via
process.nextTick, and the content of the this.indexes array after the
call (none when this.indexes is not an array). -/
structure EnsureRun where
  collOpts : Option Js
  ensureCalls : List (Js × Js)
  trace : List (List Js)
  deferredTick : Bool
  finalIndexes : Option (List IndexSpec)

/-- The option forcing done before each ensureIndex call (ensureIndexes
variant lines 98-100): options.w = 1; options.background = true. -/
def forcedOptions (o : Js) : Js :=
  (o.setField "w" (.num 1)).setField "background" (.bool true)

/-- The create loop of ensureIndexes (ensureIndexes variant lines
94-106): shift the next spec off the indexes array (mutating it), force
w and background on its options, issue ensureIndex, and on success
recurse; an error or an exhausted array calls done.  Returns the issued
calls, the done invocation, and what remains of the indexes array.
resps lists the error value each successive ensureIndex completion
callback receives. -/
def ensureLoop : List IndexSpec → List Js → List (Js × Js) × List (List Js) × List IndexSpec
  | [], _ => ([], [[.undef]], [])
  | (keys, o) :: rest, resps =>
    let opts := forcedOptions o
    let r := resps.headD .null
    if r.truthy then
      ([(keys, opts)], [[r]], rest)
    else
      let next := ensureLoop rest resps.tail
      ((keys, opts) :: next.1, next.2.1, next.2.2)

/-- ensureIndexes(callback), ensureIndexes variant lines 81-110: when
this.indexes is not a non-empty array, completes via process.nextTick
without touching the database; otherwise acquires the collection in
strict mode, forwards an acquisition error to done, and runs the create
loop.  indexes is the this.indexes value (none when null), acqErr the
error the db.collection callback receives, resps the ensureIndex
completion errors. -/
def ensureIndexes (indexes : Option (List IndexSpec)) (acqErr : Js) (resps : List Js) :
    EnsureRun :=
  let idxs := indexes.getD []
  if idxs.isEmpty then
    ⟨none, [], [[]], true, indexes⟩
  else if acqErr.truthy then
    ⟨some strictCollOpts, [], [[acqErr]], false, indexes⟩
  else
    let r := ensureLoop idxs resps
    ⟨some strictCollOpts, r.1, r.2.1, false, some r.2.2⟩

/-! ### Helper lemmas -/

/-- A run of the create loop where every ensureIndex call succeeds issues
one call per declared spec, in declaration order, with w and background
forced on each, reports success with no error, and drains the array. -/
theorem ensureLoop_all_ok (specs : List IndexSpec) :
    ensureLoop specs (List.replicate specs.length .null)
      = (specs.map (fun t => (t.1, forcedOptions t.2)), [[.undef]], []) := by
  induction specs with
  | nil => rfl
  | cons s rest ih =>
    obtain ⟨keys, o⟩ := s
    simp [ensureLoop, List.replicate_succ, Js.truthy, ih]

/-- A run of the create loop that fails at spec s issues only the calls
up to and including s, reports that error, and leaves the specs after s
in the array. -/
theorem ensureLoop_fail_at (as bs : List IndexSpec) (s : IndexSpec) (e : Js)
    (he : e.truthy = true) :
    ensureLoop (as ++ s :: bs) (List.replicate as.length .null ++ [e])
      = ((as ++ [s]).map (fun t => (t.1, forcedOptions t.2)), [[e]], bs) := by
  induction as with
  | nil =>
    obtain ⟨keys, o⟩ := s
    simp [ensureLoop, he]
  | cons a rest ih =>
    obtain ⟨k0, o0⟩ := a
    simp [ensureLoop, List.replicate_succ, Js.truthy, ih]

/-! ### Claims -/

/-- Claim C1: for every query condition matching zero documents (the
driver reports no document, or an empty array, and no error), findOne,
findAndUpdate and findAndRemove complete with an error whose message
embeds the JSON-serialized conditions; find completes without error with
an empty sequence; findOnly completes without error with a null result. -/
theorem zero_match_outcomes (conds proj opts upd : Js) (cb : UserCb) :
    (findOne conds proj .null .null .null cb).trace
      = [[.error ("Не удалось найти документ: " ++ conds.stringify)]] ∧
    (findAndUpdate conds upd .null .null .null cb).trace
      = [[.error ("Не удалось найти и обновить документ: " ++ conds.stringify)]] ∧
    (findAndRemove conds .null .null .null cb).trace
      = [[.error ("Не удалось найти и удалить документ:" ++ conds.stringify)]] ∧
    (find conds proj opts .null .null (.arr []) cb).trace = [[.null, .arr []]] ∧
    (findOnly conds proj .null .null .null cb).trace = [[.null, .null]] :=
  ⟨rfl, rfl, rfl, rfl, rfl⟩

/-- Claim C2 (code bug): updateOne, called with conditions, an update
document, an options object and a completion callback, and with the
collection acquired successfully, never invokes the completion callback:
evaluating the undefined utils.extend throws before the driver update is
issued, so the callback fires neither with an error nor with a result. -/
theorem updateOne_callback_never_invoked :
    (updateOne (.obj [("name", .str "a")]) (.obj [("x", .num 1)])
        (.obj [("upsert", .bool true)]) .null .null (.num 1)
        (fun _ => .ret .undef)).trace = [] := rfl

/-- Claim C3: tick, given a non-function, returns nothing; given a
function, it returns a wrapper that invokes the original callback
synchronously exactly once with the same arguments and receiver, never
propagates a thrown value to its immediate caller, and schedules exactly
the thrown value (when there is one) for re-raise on a later scheduling
turn. -/
theorem tick_spec :
    (∀ v, tick (.notFn v) = none) ∧
    (∀ f, ∃ w, tick (.fn f) = some w ∧ ∀ recv args,
      (w recv args).calls = [(recv, args)] ∧
      (w recv args).toCaller = CallOutcome.ret .undef ∧
      (w recv args).scheduled = thrownPart (f recv args)) := by
  refine ⟨fun v => rfl, fun f => ⟨_, rfl, fun recv args => ?_⟩⟩
  cases h : f recv args <;> simp [thrownPart, h]

/-- Claim C4 (counterexample): aggregate hands the completion callback of
the caller to the driver unwrapped, so a completion callback that throws
is observed synchronously by the driver call stack that invoked it. -/
theorem aggregate_throw_reaches_driver :
    (aggregate (.arr []) (.obj []) .null .null (.arr [])
        (fun _ => .thrown (.error "boom"))).driverThrow = some (.error "boom") := rfl

/-- Claim C4 (amended): for find, findOne, findOnly, create, createOne,
update, updateOne, findAndUpdate, remove and removeOnly the driver call
stack never observes an exception thrown by the completion callback,
whatever the acquisition and driver responses are (tick defers it);
aggregate, count and findAndRemove pass their driver-completion handler
unwrapped, so once the collection is acquired a throwing completion
callback is observed synchronously by the driver call stack; the
collection-acquisition path of those three is still tick-wrapped. -/
theorem callback_throw_deferral (conds proj opts upd docs doc pipeline : Js)
    (acqErr rerr rres : Js) (cb : UserCb) :
    (find conds proj opts acqErr rerr rres cb).driverThrow = none ∧
    (findOne conds proj acqErr rerr rres cb).driverThrow = none ∧
    (findOnly conds proj acqErr rerr rres cb).driverThrow = none ∧
    (create docs acqErr rerr rres cb).driverThrow = none ∧
    (createOne doc acqErr rerr rres cb).driverThrow = none ∧
    (update conds upd acqErr rerr rres cb).driverThrow = none ∧
    (updateOne conds upd opts acqErr rerr rres cb).driverThrow = none ∧
    (findAndUpdate conds upd acqErr rerr rres cb).driverThrow = none ∧
    (remove conds acqErr rerr rres cb).driverThrow = none ∧
    (removeOnly conds acqErr rerr rres cb).driverThrow = none ∧
    (aggregate pipeline opts .null rerr rres cb).driverThrow = thrownOpt (cb [rerr, rres]) ∧
    (count conds .null rerr rres cb).driverThrow
      = thrownOpt (cb ((count conds .null rerr rres cb).trace.headD [])) ∧
    (findAndRemove conds .null rerr rres cb).driverThrow
      = thrownOpt (cb ((findAndRemove conds .null rerr rres cb).trace.headD [])) ∧
    (∀ m, (aggregate pipeline opts (.error m) rerr rres cb).driverThrow = none) ∧
    (∀ m, (count conds (.error m) rerr rres cb).driverThrow = none) ∧
    (∀ m, (findAndRemove conds (.error m) rerr rres cb).driverThrow = none) := by
  refine ⟨?_, ?_, ?_, ?_, ?_, ?_, ?_, ?_, ?_, ?_, rfl, rfl, rfl,
    fun m => rfl, fun m => rfl, fun m => rfl⟩
  · unfold find; split <;> rfl
  · unfold findOne; split <;> rfl
  · unfold findOnly; split <;> rfl
  · unfold create; split <;> rfl
  · unfold createOne; split <;> rfl
  · unfold update; split <;> rfl
  · unfold updateOne; split <;> rfl
  · unfold findAndUpdate; split <;> rfl
  · unfold remove; split <;> rfl
  · unfold removeOnly; split <;> rfl

/-- Claim C5: ensureIndexes with an empty declared list completes
successfully on the next scheduling turn without touching the database;
with N declared specs and all creations succeeding it issues exactly the
N ensureIndex calls in declaration order, forcing w = 1 and
background = true on each, and reports success with no error; when the
creation of spec s fails, the specs after s are never issued and that
error is reported. -/
theorem ensureIndexes_spec :
    (∀ acqErr resps, ensureIndexes (some []) acqErr resps = ⟨none, [], [[]], true, some []⟩) ∧
    (∀ (s : IndexSpec) (rest : List IndexSpec),
      ensureIndexes (some (s :: rest)) .null (List.replicate (s :: rest).length .null)
        = ⟨some strictCollOpts, (s :: rest).map (fun t => (t.1, forcedOptions t.2)),
            [[.undef]], false, some []⟩) ∧
    (∀ (as bs : List IndexSpec) (s : IndexSpec) (m : String),
      ensureIndexes (some (as ++ s :: bs)) .null
          (List.replicate as.length .null ++ [.error m])
        = ⟨some strictCollOpts, (as ++ [s]).map (fun t => (t.1, forcedOptions t.2)),
            [[.error m]], false, some bs⟩) := by
  refine ⟨fun acqErr resps => rfl, fun s rest => ?_, fun as bs s m => ?_⟩
  · have h := ensureLoop_all_ok (s :: rest)
    simp [ensureIndexes, Js.truthy] at h ⊢
    simp [h]
  · have h := ensureLoop_fail_at as bs s (.error m) rfl
    have hne : (as ++ s :: bs).isEmpty = false := by cases as <;> rfl
    simp [ensureIndexes, Js.truthy, hne, h]

/-- Claim C6 (code bug): updateOne with a caller-supplied options object
does not pass merged options to the driver: it issues no driver call at
all and schedules a TypeError for re-raise on a later turn, because the
utils module exports no extend. -/
theorem updateOne_calls_undefined_extend :
    (updateOne (.obj [("name", .str "a")]) (.obj [("x", .num 1)])
        (.obj [("upsert", .bool true)]) .null .null (.num 1)
        (fun _ => .ret .undef)).driverCalls = [] ∧
    (updateOne (.obj [("name", .str "a")]) (.obj [("x", .num 1)])
        (.obj [("upsert", .bool true)]) .null .null (.num 1)
        (fun _ => .ret .undef)).deferred
      = [.error "TypeError: utils.extend is not a function"] :=
  ⟨rfl, rfl⟩

/-- Claim C7 (counterexample): the find operation of the earliest
provider variant (lib/index.js) requests its collection with w = 1 only:
the options it passes to db.collection carry no strict field, while the
canonical variant requests strict = true. -/
theorem legacy_acquisition_not_strict :
    ((legacyFind (.obj []) .null .null (.arr [])
        (fun _ => .ret .undef)).collOpts).getField "strict" = .undef ∧
    ((find (.obj []) (.obj []) (.obj []) .null .null (.arr [])
        (fun _ => .ret .undef)).collOpts).getField "strict" = .bool true :=
  ⟨rfl, rfl⟩

/-- Claim C7 (amended): every operation of the canonical provider, and
ensureIndexes of the index-managing variant, requests its collection with
w = 1 and strict = true; when acquisition fails, the operation issues no
driver call and delivers the acquisition error to the completion callback
unchanged.  The earliest variant (lib/index.js) requests only w = 1. -/
theorem strict_acquisition (conds proj opts upd docs doc pipeline : Js)
    (acqErr rerr rres : Js) (cb : UserCb) :
    ((find conds proj opts acqErr rerr rres cb).collOpts = strictCollOpts ∧
     (findOne conds proj acqErr rerr rres cb).collOpts = strictCollOpts ∧
     (findOnly conds proj acqErr rerr rres cb).collOpts = strictCollOpts ∧
     (aggregate pipeline opts acqErr rerr rres cb).collOpts = strictCollOpts ∧
     (create docs acqErr rerr rres cb).collOpts = strictCollOpts ∧
     (createOne doc acqErr rerr rres cb).collOpts = strictCollOpts ∧
     (update conds upd acqErr rerr rres cb).collOpts = strictCollOpts ∧
     (updateOne conds upd opts acqErr rerr rres cb).collOpts = strictCollOpts ∧
     (findAndUpdate conds upd acqErr rerr rres cb).collOpts = strictCollOpts ∧
     (remove conds acqErr rerr rres cb).collOpts = strictCollOpts ∧
     (removeOnly conds acqErr rerr rres cb).collOpts = strictCollOpts ∧
     (findAndRemove conds acqErr rerr rres cb).collOpts = strictCollOpts ∧
     (count conds acqErr rerr rres cb).collOpts = strictCollOpts) ∧
    (∀ m,
      (find conds proj opts (.error m) rerr rres cb).driverCalls = [] ∧
      (find conds proj opts (.error m) rerr rres cb).trace = [[.error m]] ∧
      (findOne conds proj (.error m) rerr rres cb).driverCalls = [] ∧
      (findOne conds proj (.error m) rerr rres cb).trace = [[.error m]] ∧
      (findOnly conds proj (.error m) rerr rres cb).driverCalls = [] ∧
      (findOnly conds proj (.error m) rerr rres cb).trace = [[.error m]] ∧
      (aggregate pipeline opts (.error m) rerr rres cb).driverCalls = [] ∧
      (aggregate pipeline opts (.error m) rerr rres cb).trace = [[.error m]] ∧
      (create docs (.error m) rerr rres cb).driverCalls = [] ∧
      (create docs (.error m) rerr rres cb).trace = [[.error m]] ∧
      (createOne doc (.error m) rerr rres cb).driverCalls = [] ∧
      (createOne doc (.error m) rerr rres cb).trace = [[.error m]] ∧
      (update conds upd (.error m) rerr rres cb).driverCalls = [] ∧
      (update conds upd (.error m) rerr rres cb).trace = [[.error m]] ∧
      (updateOne conds upd opts (.error m) rerr rres cb).driverCalls = [] ∧
      (updateOne conds upd opts (.error m) rerr rres cb).trace = [[.error m]] ∧
      (findAndUpdate conds upd (.error m) rerr rres cb).driverCalls = [] ∧
      (findAndUpdate conds upd (.error m) rerr rres cb).trace = [[.error m]] ∧
      (remove conds (.error m) rerr rres cb).driverCalls = [] ∧
      (remove conds (.error m) rerr rres cb).trace = [[.error m]] ∧
      (removeOnly conds (.error m) rerr rres cb).driverCalls = [] ∧
      (removeOnly conds (.error m) rerr rres cb).trace = [[.error m]] ∧
      (findAndRemove conds (.error m) rerr rres cb).driverCalls = [] ∧
      (findAndRemove conds (.error m) rerr rres cb).trace = [[.error m]] ∧
      (count conds (.error m) rerr rres cb).driverCalls = [] ∧
      (count conds (.error m) rerr rres cb).trace = [[.error m]]) ∧
    (∀ (s : IndexSpec) (rest : List IndexSpec) (m : String) (resps : List Js),
      ensureIndexes (some (s :: rest)) (.error m) resps
        = ⟨some strictCollOpts, [], [[.error m]], false, some (s :: rest)⟩) ∧
    (∀ m, (legacyFind conds (.error m) rerr rres cb).collOpts = legacyCollOpts) := by
  refine ⟨⟨?_, ?_, ?_, ?_, ?_, ?_, ?_, ?_, ?_, ?_, ?_, ?_, ?_⟩,
    fun m => ⟨rfl, rfl, rfl, rfl, rfl, rfl, rfl, rfl, rfl, rfl, rfl, rfl, rfl,
      rfl, rfl, rfl, rfl, rfl, rfl, rfl, rfl, rfl, rfl, rfl, rfl, rfl⟩,
    fun s rest m resps => rfl, fun m => rfl⟩
  · unfold find; split <;> rfl
  · unfold findOne; split <;> rfl
  · unfold findOnly; split <;> rfl
  · unfold aggregate; split <;> rfl
  · unfold create; split <;> rfl
  · unfold createOne; split <;> rfl
  · unfold update; split <;> rfl
  · unfold updateOne; split <;> rfl
  · unfold findAndUpdate; split <;> rfl
  · unfold remove; split <;> rfl
  · unfold removeOnly; split <;> rfl
  · unfold findAndRemove; split <;> rfl
  · unfold count; split <;> rfl

/-- Claim C8: every driver update that update issues carries w = 1 and
multi = true; and when the driver reports no error and a falsy
affected/removed count, update and remove complete with an error whose
message embeds the JSON-serialized conditions. -/
theorem update_remove_zero_affected (conds upd : Js) (acqErr rerr rnum : Js) (cb : UserCb) :
    ((update conds upd acqErr rerr rnum cb).driverCalls = [] ∨
      (update conds upd acqErr rerr rnum cb).driverCalls
        = [⟨"update", [conds, upd, .obj [("w", .num 1), ("multi", .bool true)]]⟩]) ∧
    (rerr.truthy = false → rnum.truthy = false →
      (update conds upd .null rerr rnum cb).trace
        = [[.error ("Не удалось обновить документы: " ++ conds.stringify)]] ∧
      (remove conds .null rerr rnum cb).trace
        = [[.error ("Не удалось удалить документы: " ++ conds.stringify)]]) := by
  constructor
  · unfold update; split
    · exact Or.inl rfl
    · exact Or.inr rfl
  · intro h1 h2
    have h0 : (Js.null).truthy = false := rfl
    constructor <;> simp [update, remove, mkRun, tickInvoke, h0, h1, h2]

/-- Witness for claim C8 at concrete inputs: conditions matching the
name-a document, driver reporting no error and zero affected/removed. -/
theorem update_remove_zero_affected_witness :
    (update (.obj [("name", .str "a")]) (.obj []) .null .null (.num 0)
        (fun _ => .ret .undef)).trace
      = [[.error ("Не удалось обновить документы: "
          ++ (Js.obj [("name", .str "a")]).stringify)]] :=
  ((update_remove_zero_affected (.obj [("name", .str "a")]) (.obj []) .null .null (.num 0)
      (fun _ => .ret .undef)).2 rfl rfl).1

/-- Claim C9 (counterexample): ensureIndexes mutates instance state:
after a successful run over one declared index spec, the this.indexes
array is empty instead of holding the original spec (the create loop
shifts each spec off the declared array). -/
theorem ensureIndexes_mutates_instance :
    ¬ ((ensureIndexes (some [(Js.obj [("a", .num 1)], Js.obj [])]) .null [.null]).finalIndexes
        = some [(Js.obj [("a", .num 1)], Js.obj [])]) := by
  intro h
  have h2 : (some [] : Option (List IndexSpec))
      = some [(Js.obj [("a", .num 1)], Js.obj [])] := h
  simp at h2

/-- Claim C9 (amended): the read and write operations are per-call pure
over the instance, but ensureIndexes consumes the declared index list: a
run with all creations succeeding leaves this.indexes empty, and a run
failing at spec s leaves only the specs declared after s. -/
theorem ensureIndexes_consumes_specs :
    (∀ specs : List IndexSpec,
      (ensureIndexes (some specs) .null (List.replicate specs.length .null)).finalIndexes
        = some []) ∧
    (∀ (as bs : List IndexSpec) (s : IndexSpec) (m : String),
      (ensureIndexes (some (as ++ s :: bs)) .null
          (List.replicate as.length .null ++ [.error m])).finalIndexes = some bs) := by
  constructor
  · intro specs
    cases specs with
    | nil => rfl
    | cons s rest =>
      have h := ensureLoop_all_ok (s :: rest)
      simp [ensureIndexes, Js.truthy] at h ⊢
      simp [h]
  · intro as bs s m
    have h := ensureLoop_fail_at as bs s (.error m) rfl
    have hne : (as ++ s :: bs).isEmpty = false := by cases as <;> rfl
    simp [ensureIndexes, Js.truthy, hne, h]

/-- Claim C10: on success (no driver error and a truthy affected/removed
count) update and remove invoke the completion callback exactly once with
a single null argument and no result value; the updateOne
driver-completion handler as written in the source behaves identically
(in the program it is unreachable: updateOne throws on the undefined
utils.extend before it is installed). -/
theorem write_success_no_result (conds upd : Js) (rerr rnum : Js) (cb : UserCb) :
    rerr.truthy = false → rnum.truthy = true →
    (update conds upd .null rerr rnum cb).trace = [[.null]] ∧
    (remove conds .null rerr rnum cb).trace = [[.null]] ∧
    updateOneHandler conds rerr rnum = [.null] := by
  intro h1 h2
  have h0 : (Js.null).truthy = false := rfl
  refine ⟨?_, ?_, ?_⟩ <;>
    simp [update, remove, updateOneHandler, mkRun, tickInvoke, h0, h1, h2]

/-- Witness for claim C10 at concrete inputs: driver reports no error and
three affected documents. -/
theorem write_success_no_result_witness :
    (update (.obj [("name", .str "a")]) (.obj []) .null .null (.num 3)
        (fun _ => .ret .undef)).trace = [[.null]] :=
  (write_success_no_result (.obj [("name", .str "a")]) (.obj []) .null (.num 3)
      (fun _ => .ret .undef) rfl rfl).1

end MongoProvider
